import Mathlib

/-
  Verification development for the reai-ai-relay repository.

  The repository contains four near-duplicate HTTP endpoint handlers that
  turn property-listing metadata into marketing copy, calling an external
  chat-completion service and falling back to deterministic template text:

  * the main English handler      (src/app/api/ai/describe/route.js, POST, lines 234-306)
    with its helpers fallbackTitle / fallbackDescriptions / callOpenAI;
  * a Russian handler in the same file (lines 325-428);
  * the English image-enabled handler   (unnamed part_000);
  * the Russian TypeScript handler      (unnamed part_001), observably
    identical to the Russian handler of route.js.

  This file shallowly embeds those handlers as total Lean functions.
  JavaScript strings are modelled as Lean String (code-unit positions are
  modelled as character positions; none of the concrete inputs used below
  contain astral characters, so the two agree).  The external fetch is an
  explicit `Provider` parameter: an exception, or an HTTP response with a
  status code and a raw body string.  JSON.parse is modelled by a small
  executable JSON reader `jparse` that covers the object/array/string/
  integer/bool/null fragment actually exchanged by the code (it rejects
  fractional numbers and \u escapes, which no concrete input below uses).
-/

set_option maxHeartbeats 1000000

namespace ReaiRelay

/-! ## JS-style string helpers -/

/-- Whitespace test used for trimming and JSON whitespace skipping. -/
def wsChar (c : Char) : Bool := c.isWhitespace

/-- Model of JavaScript `String.prototype.trim` on the character list. -/
def trimBothL (l : List Char) : List Char :=
  ((l.dropWhile wsChar).reverse.dropWhile wsChar).reverse

/-- Model of JavaScript `String.prototype.trim`. -/
def strTrim (s : String) : String := String.mk (trimBothL s.toList)

/-- Model of JavaScript `s.slice(0, n)`. -/
def strTake (n : Nat) (s : String) : String := String.mk (s.toList.take n)

/-- Model of JavaScript `s.slice(a, b)` for `0 ≤ a ≤ b`. -/
def strSliceCU (s : String) (a b : Nat) : String :=
  String.mk ((s.toList.drop a).take (b - a))

/-- Model of JavaScript `s.length` (code units; characters in our fragment). -/
def strLen (s : String) : Nat := s.toList.length

/-- The route.js helper `isNonEmpty` restricted to strings:
`typeof s === "string" && s.trim().length > 0`. -/
def isNonEmptyS (s : String) : Bool := !(trimBothL s.toList).isEmpty

/-- The route.js helper `isNonEmpty` on a possibly-absent value
(absent / non-string values are not non-empty strings). -/
def isNonEmptyO : Option String → Bool
  | some s => isNonEmptyS s
  | none => false

/-- JavaScript `x || d` for a possibly-absent string `x`
(`undefined` and the empty string are falsy). -/
def jsOrS : Option String → String → String
  | some s, d => if s = ("") then d else s
  | none, d => d

/-- JavaScript truthiness of a possibly-absent string. -/
def optTruthyS : Option String → Bool
  | some s => !(s = (""))
  | none => false

/-- JavaScript truthiness of a possibly-absent number (0 is falsy). -/
def optTruthyN : Option Nat → Bool
  | some n => !(n = 0)
  | none => false

/-- `startsWithL pat l` is true when `pat` occurs at the head of `l`. -/
def startsWithL : List Char → List Char → Bool
  | [], _ => true
  | _ :: _, [] => false
  | a :: as, b :: bs => a = b && startsWithL as bs

/-- Model of JavaScript `u.startsWith(pre)`. -/
def jsStartsWith (u pre : String) : Bool := startsWithL pre.toList u.toList

/-- Substring occurrence test used to state the spec's containment facts. -/
def containsSubAux (needle : List Char) : List Char → Bool
  | [] => needle.isEmpty
  | c :: rest => startsWithL needle (c :: rest) || containsSubAux needle rest

/-- `strContains hay needle` decides whether `needle` occurs in `hay`. -/
def strContains (hay needle : String) : Bool :=
  containsSubAux needle.toList hay.toList

/-- Model of JavaScript `Array.prototype.join(sep)`. -/
def jsJoinSep (sep : String) : List String → String
  | [] => ("")
  | [a] => a
  | a :: b :: t => a ++ sep ++ jsJoinSep sep (b :: t)

/-- Grouping step for `Number.prototype.toLocaleString` (en-US):
insert a comma after every three digits, working from the right. -/
def groupRevAux : Nat → List Char → List Char
  | _, [] => []
  | 0, l => l
  | fuel + 1, l =>
    if l.length ≤ 3 then l
    else l.take 3 ++ (',') :: groupRevAux fuel (l.drop 3)

/-- Model of `Number.prototype.toLocaleString()` on a natural number under
the en-US default locale of the deployment runtime. -/
def jsToLocale (n : Nat) : String :=
  let ds := Nat.toDigits 10 n
  String.mk ((groupRevAux ds.length ds.reverse).reverse)

/-- Number of sentence-terminating periods in a string; every template
sentence of the fallback generators ends in exactly one `.`. -/
def countDot (s : String) : Nat := s.toList.count ('.')

/-! ## A small executable model of `JSON.parse` -/

/-- JSON values, plus `jundefined` for the JavaScript `undefined` produced by
optional-chaining property access on absent fields. -/
inductive JVal where
  | jundefined
  | jnull
  | jbool (b : Bool)
  | jnum (n : Int)
  | jstr (s : String)
  | jarr (xs : List JVal)
  | jobj (fs : List (String × JVal))

/-- The opening-brace character, `Char.ofNat 123`. -/
def lbraceC : Char := Char.ofNat 123

/-- The closing-brace character, `Char.ofNat 125`. -/
def rbraceC : Char := Char.ofNat 125

/-- The double-quote character. -/
def quoteC : Char := Char.ofNat 34

/-- The backslash character. -/
def bslashC : Char := Char.ofNat 92

/-- JSON string escapes supported by the model
(quotation mark, backslash, slash, and the common control letters). -/
def escChar (c : Char) : Option Char :=
  if c = quoteC then some quoteC
  else if c = bslashC then some bslashC
  else if c = ('/') then some ('/')
  else if c = ('n') then some (Char.ofNat 10)
  else if c = ('t') then some (Char.ofNat 9)
  else if c = ('r') then some (Char.ofNat 13)
  else none

/-- Lex the remainder of a JSON string literal (after the opening quote),
returning its characters and the rest of the input. -/
def lexStrAux : List Char → Option (List Char × List Char)
  | [] => none
  | c :: rest =>
    if c = quoteC then some ([], rest)
    else if c = bslashC then
      match rest with
      | [] => none
      | e :: rest2 =>
        match escChar e with
        | none => none
        | some r =>
          match lexStrAux rest2 with
          | none => none
          | some (l, rem) => some (r :: l, rem)
    else
      match lexStrAux rest with
      | none => none
      | some (l, rem) => some (c :: l, rem)

/-- Digits-to-number accumulator for JSON integers. -/
def digitsToNat (l : List Char) : Nat :=
  l.foldl (fun a c => a * 10 + (c.toNat - 48)) 0

mutual

/-- Fueled recursive-descent reader for a JSON value. -/
def parseJV : Nat → List Char → Option (JVal × List Char)
  | 0, _ => none
  | fuel + 1, cs0 =>
    let cs := cs0.dropWhile wsChar
    match cs with
    | [] => none
    | c :: rest =>
      if c = quoteC then
        match lexStrAux rest with
        | some (l, rem) => some (.jstr (String.mk l), rem)
        | none => none
      else if c = lbraceC then
        let cs2 := rest.dropWhile wsChar
        match cs2 with
        | d :: rest2 =>
          if d = rbraceC then some (.jobj [], rest2)
          else
            match parseMembers fuel cs2 with
            | some (fs, rem) => some (.jobj fs, rem)
            | none => none
        | [] => none
      else if c = ('[') then
        let cs2 := rest.dropWhile wsChar
        match cs2 with
        | d :: rest2 =>
          if d = (']') then some (.jarr [], rest2)
          else
            match parseItems fuel cs2 with
            | some (xs, rem) => some (.jarr xs, rem)
            | none => none
        | [] => none
      else if startsWithL (String.toList ("null")) cs then
        some (.jnull, cs.drop 4)
      else if startsWithL (String.toList ("true")) cs then
        some (.jbool true, cs.drop 4)
      else if startsWithL (String.toList ("false")) cs then
        some (.jbool false, cs.drop 5)
      else
        let neg := c = ('-')
        let cs2 := if neg then rest else cs
        let ds := cs2.takeWhile Char.isDigit
        let rem := cs2.dropWhile Char.isDigit
        if ds.isEmpty then none
        else
          match rem with
          | p :: _ =>
            if p = ('.') || p = ('e') || p = ('E') then none
            else some (.jnum (if neg then -(digitsToNat ds : Int) else (digitsToNat ds : Int)), rem)
          | [] =>
            some (.jnum (if neg then -(digitsToNat ds : Int) else (digitsToNat ds : Int)), rem)

/-- Fueled reader for the members of a JSON object (positioned at a key). -/
def parseMembers : Nat → List Char → Option (List (String × JVal) × List Char)
  | 0, _ => none
  | fuel + 1, cs =>
    match cs with
    | c :: rest =>
      if c = quoteC then
        match lexStrAux rest with
        | some (k, rem) =>
          let rem2 := rem.dropWhile wsChar
          match rem2 with
          | d :: rest2 =>
            if d = (':') then
              match parseJV fuel rest2 with
              | some (v, rem3) =>
                let rem4 := rem3.dropWhile wsChar
                match rem4 with
                | e :: rest3 =>
                  if e = (',') then
                    match parseMembers fuel (rest3.dropWhile wsChar) with
                    | some (fs, rem5) => some ((String.mk k, v) :: fs, rem5)
                    | none => none
                  else if e = rbraceC then
                    some ([(String.mk k, v)], rest3)
                  else none
                | [] => none
              | none => none
            else none
          | [] => none
        | none => none
      else none
    | [] => none

/-- Fueled reader for the items of a JSON array (positioned at a value). -/
def parseItems : Nat → List Char → Option (List JVal × List Char)
  | 0, _ => none
  | fuel + 1, cs =>
    match parseJV fuel cs with
    | some (v, rem) =>
      let rem2 := rem.dropWhile wsChar
      match rem2 with
      | e :: rest =>
        if e = (',') then
          match parseItems fuel (rest.dropWhile wsChar) with
          | some (xs, rem3) => some (v :: xs, rem3)
          | none => none
        else if e = (']') then
          some ([v], rest)
        else none
      | [] => none
    | none => none

end

/-- Model of `JSON.parse`: `none` models a thrown `SyntaxError`. -/
def jparse (s : String) : Option JVal :=
  match parseJV (s.toList.length * 2 + 8) s.toList with
  | some (v, rem) => if (rem.dropWhile wsChar).isEmpty then some v else none
  | none => none

/-- JavaScript (optional-chained) property access `v?.[k]`; duplicate keys
follow `JSON.parse`, the last occurrence wins. -/
def jget (v : JVal) (k : String) : JVal :=
  match v with
  | .jobj fs =>
    match fs.reverse.find? (fun p => p.1 = k) with
    | some p => p.2
    | none => .jundefined
  | _ => .jundefined

/-- JavaScript (optional-chained) index access `v?.[i]`. -/
def jidx (v : JVal) (i : Nat) : JVal :=
  match v with
  | .jarr xs => xs.getD i .jundefined
  | _ => .jundefined

/-- Extract a JavaScript string, if the value is one. -/
def asStrJ : JVal → Option String
  | .jstr s => some s
  | _ => none

/-- `typeof v === "string" && v.trim().length > 0`, on a JSON value. -/
def isNonEmptyJ (v : JVal) : Bool :=
  match v with
  | .jstr s => isNonEmptyS s
  | _ => false

/-! ## Data model -/

/-- An entry of the inbound `images` array: a string, or any non-string
JSON value (the handlers only test `typeof u === "string"`). -/
inductive ImgEntry where
  | istr (s : String)
  | iother
deriving DecidableEq

/-- The inbound request body after JSON parsing, with every field optional.
`none` models an absent (`undefined`) field.  `price` is modelled by its
JavaScript string rendering `String(price)`; numeric fields are modelled as
naturals (the code only renders and truthiness-tests them). -/
structure ReqBody where
  title : Option String
  address : Option String
  notes : Option String
  price : Option String
  mode : Option String
  length : Option String
  style : Option String
  bedrooms : Option Nat
  bathrooms : Option Nat
  rooms : Option Nat
  area : Option Nat
  images : Option (List ImgEntry)
  useImages : Option Bool
deriving DecidableEq

/-- The empty request body `{}` (also what an absent or malformed JSON
body normalizes to via `req.json().catch(() => ({})) || {}`). -/
def emptyBody : ReqBody :=
  ⟨none, none, none, none, none, none, none, none, none, none, none, none, none⟩

/-- The `texts: { business, emotional }` response object. -/
structure TextsPair where
  business : String
  emotional : String
deriving DecidableEq

/-- Behavior of the external chat-completion HTTP call: either the fetch
(or a later await on the response) raises, or an HTTP response arrives with
a status code and a raw body text. -/
inductive Provider where
  | fetchExc (msg : String)
  | httpRes (status : Nat) (body : String)

/-- `res.ok` of the fetch API: status in the 200-299 range. -/
def httpOkStatus (st : Nat) : Bool := 200 ≤ st && st ≤ 299

/-- Result record of `callOpenAI` in the main handler:
`status` is one of ok / missing_key / error. -/
structure LlmRes where
  status : String
  title : Option String
  business : Option String
  emotional : Option String
  error : Option String

/-- Response payload of the main handler.  Optional fields model JSON keys
that the code conditionally attaches; `error` is only used by the
HTTP 500 `AI_FATAL` body. -/
structure MainPayload where
  ok : Bool
  source : Option String
  llm_status : Option String
  llm_error : Option String
  title : Option String
  texts : Option TextsPair
  error : Option String
deriving DecidableEq

/-- Response payload of the Russian handlers (route.js lines 325-428 and
part_001): `llm_status` there is the numeric provider status. -/
structure RuPayload where
  ok : Bool
  texts : TextsPair
  source : String
  llm_status : Option Nat
  llm_error : Option String
deriving DecidableEq

/-- Response payload of the image-enabled English handler (part_000). -/
structure ImgPayload where
  ok : Bool
  title : String
  texts : TextsPair
  source : String
  llm_status : Option Nat
  llm_error : Option String
deriving DecidableEq

/-! ## Main handler (route.js lines 26-306) -/

/-- `parsePriceToNumber` of route.js: strip every character that is not a
digit or a dot from `String(price)` and read the result as a JavaScript
number, rounding to the nearest integer.  `Number("")` is 0; a string with
more than one dot, or a dot and no digit, is NaN (`none`).  Falsy prices
(`undefined` or the empty string) yield `none` up front. -/
def parsePriceToNumber (price : Option String) : Option Nat :=
  match price with
  | none => none
  | some p =>
    if p = ("") then none
    else
      let kept := p.toList.filter (fun c => c.isDigit || c = ('.'))
      let intPart := kept.takeWhile (fun c => !(c = ('.')))
      let rest := kept.dropWhile (fun c => !(c = ('.')))
      match rest with
      | [] => some (digitsToNat intPart)
      | _ :: frac =>
        if frac.any (fun c => c = ('.')) then none
        else if kept.all (fun c => c = ('.')) then none
        else
          let base := digitsToNat intPart
          match frac with
          | [] => some base
          | d :: _ => if 53 ≤ d.toNat then some (base + 1) else some base

/-- `featList` of route.js: join the present numeric features with a
middle dot. -/
def featList (bedrooms bathrooms area : Option Nat) : String :=
  let parts :=
    (match bedrooms with | some n => [toString n ++ (" BR")] | none => []) ++
    (match bathrooms with | some n => [toString n ++ (" BA")] | none => []) ++
    (match area with | some n => [toString n ++ (" ft²")] | none => [])
  jsJoinSep (" · ") parts

/-- `fallbackTitle` of route.js. -/
def fallbackTitle (data : ReqBody) : String :=
  let parts :=
    (if optTruthyN data.bedrooms then [toString (data.bedrooms.getD 0) ++ ("-Bedroom")] else []) ++
    (if optTruthyN data.area then [toString (data.area.getD 0) ++ (" ft²")] else [])
  let head := if parts.isEmpty then ("Modern Home") else jsJoinSep (" ") parts
  let loc := if optTruthyS data.address then (" in ") ++ data.address.getD ("") else ("")
  strTake 120 (head ++ loc)

/-- The ordered candidate business sentences of `fallbackDescriptions`. -/
def businessSentences (data : ReqBody) : List String :=
  let feats := featList data.bedrooms data.bathrooms data.area
  let priceText :=
    match parsePriceToNumber data.price with
    | some n => (" Priced around $") ++ jsToLocale n ++ (".")
    | none => ("")
  let hasImages :=
    match data.images with
    | some l => !l.isEmpty
    | none => false
  let imgHint := if hasImages then (" Photos showcase the space and natural light.") else ("")
  [("Turn-key property") ++
     (if optTruthyS data.address then (" at ") ++ data.address.getD ("") else ("")) ++
     (" with ") ++ (if feats = ("") then ("balanced layout") else feats) ++ (".")] ++
  (if optTruthyN data.area then
     [("Efficient floor plan across ") ++ toString (data.area.getD 0) ++
        (" square feet with flexible living zones.")]
   else []) ++
  (if optTruthyN data.bedrooms || optTruthyN data.bathrooms then
     [("Comfortable ") ++
        (match data.bedrooms with | some n => toString n | none => ("—")) ++
        (" bedrooms and ") ++
        (match data.bathrooms with | some n => toString n | none => ("—")) ++
        (" bathrooms for daily convenience.")]
   else []) ++
  [("Ready for immediate move-in with straightforward ownership and utilities.") ++ priceText] ++
  [("Suitable for personal living or as a steady rental asset.") ++ imgHint]

/-- The ordered candidate emotional sentences of `fallbackDescriptions`. -/
def emotionalSentences (data : ReqBody) : List String :=
  let hasImages :=
    match data.images with
    | some l => !l.isEmpty
    | none => false
  [("Step inside and feel the calm — soft daylight and a welcoming flow set the tone.")] ++
  [("Cook, gather, and unwind in spaces that bring people together without feeling crowded.")] ++
  (if optTruthyS data.address then
     [("The neighborhood around ") ++ data.address.getD ("") ++ (" adds a sense of belonging.")]
   else []) ++
  (if hasImages then
     [("The photos hint at warm evenings and lazy weekends already waiting here.")]
   else []) ++
  [("It’s a place that feels like home from the first minute.")]

/-- The sentence budget of `fallbackDescriptions` (`nBiz` and `nEmo` agree). -/
def sentenceBudget (length : String) : Nat :=
  if length = ("short") then 2 else if length = ("long") then 6 else 4

/-- `fallbackDescriptions` of route.js: take the length-determined prefix
of each candidate list and join with single spaces. -/
def fallbackDescriptions (data : ReqBody) (length : String) : TextsPair :=
  ⟨jsJoinSep (" ") ((businessSentences data).take (sentenceBudget length)),
   jsJoinSep (" ") ((emotionalSentences data).take (sentenceBudget length))⟩

/-- The `choices[0].message.content` path used by every handler. -/
def contentField (j : JVal) : JVal :=
  jget (jget (jidx (jget j ("choices")) 0) ("message")) ("content")

/-- The provider-error message of `callOpenAI`:
`j?.error?.message` when it is a truthy string, otherwise `HTTP <status>`
(non-string truthy messages do not occur in the modelled traffic). -/
def mainErrMsg (j : JVal) (st : Nat) : String :=
  match jget (jget j ("error")) ("message") with
  | .jstr s => if s = ("") then ("HTTP ") ++ toString st else s
  | _ => ("HTTP ") ++ toString st

/-- `callOpenAI` of route.js, with the network modelled by `prov`.
`res.json().catch(() => ({}))` is `jparse` defaulting to the empty object;
content must be a non-empty string; the content is parsed strictly with
`JSON.parse` (no brace extraction) and a failure is the `bad_json` error. -/
def callOpenAI (apiKey : Option String) (prov : Provider) : LlmRes :=
  if !(optTruthyS apiKey) then ⟨("missing_key"), none, none, none, none⟩
  else
    match prov with
    | .fetchExc m => ⟨("error"), none, none, none, some m⟩
    | .httpRes st body =>
      let j := (jparse body).getD (JVal.jobj [])
      if !(httpOkStatus st) then
        ⟨("error"), none, none, none, some (mainErrMsg j st)⟩
      else
        match asStrJ (contentField j) with
        | none => ⟨("error"), none, none, none, some ("empty_response")⟩
        | some c =>
          if c = ("") then ⟨("error"), none, none, none, some ("empty_response")⟩
          else
            match jparse c with
            | none => ⟨("error"), none, none, none, some ("bad_json")⟩
            | some parsed =>
              ⟨("ok"),
               (match jget parsed ("title") with
                | .jstr s => if isNonEmptyS s then some s else none
                | _ => none),
               (match jget (jget parsed ("texts")) ("business") with
                | .jstr s => if isNonEmptyS s then some s else none
                | _ => none),
               (match jget (jget parsed ("texts")) ("emotional") with
                | .jstr s => if isNonEmptyS s then some s else none
                | _ => none),
               none⟩

/-- The title-mixing logic of the main handler (route.js lines 249-261),
with the lazily-evaluated `fallbackTitle(body)` passed in as `fb`:
start from the trimmed client title, overwrite with the LLM title truncated
to 200 characters when that is a non-empty string, and fall back to `fb`
only when a title is required and still empty. -/
def composeTitle (fb : String) (bodyTitle llmTitle : Option String) (needTitle : Bool) : String :=
  let t0 := strTrim (bodyTitle.getD (""))
  let t1 := if isNonEmptyO llmTitle then strTake 200 (llmTitle.getD ("")) else t0
  if needTitle && !(isNonEmptyS t1) then fb else t1

/-- The normal (no-exception) body of the main handler `POST`
(route.js lines 234-289). -/
def POSTmainCore (b : ReqBody) (apiKey : Option String) (prov : Provider) : MainPayload :=
  let mode := jsOrS b.mode ("all")
  let length := jsOrS b.length ("medium")
  let hasKey := optTruthyS apiKey
  let llm := if hasKey then callOpenAI apiKey prov else ⟨("missing_key"), none, none, none, none⟩
  let business0 := if isNonEmptyO llm.business then llm.business.getD ("") else ("")
  let emotional0 := if isNonEmptyO llm.emotional then llm.emotional.getD ("") else ("")
  let needTitle := mode = ("title") || mode = ("all")
  let needTexts := mode = ("descriptions") || mode = ("all")
  let title := composeTitle (fallbackTitle b) b.title llm.title needTitle
  let texts :=
    if needTexts && (!(isNonEmptyS business0) || !(isNonEmptyS emotional0)) then
      let fb := fallbackDescriptions b length
      (if !(isNonEmptyS business0) then fb.business else business0,
       if !(isNonEmptyS emotional0) then fb.emotional else emotional0)
    else (business0, emotional0)
  let src := if llm.status = ("ok") then ("openai") else ("fallback")
  let le0 :=
    match llm.error with
    | some e => if e = ("") then none else some e
    | none => none
  let le := if !hasKey && le0 = none then some ("MISSING_API_KEY") else le0
  ⟨true, some src, some llm.status, le,
   (if mode = ("title") then some title
    else if mode = ("descriptions") then none
    else some title),
   (if mode = ("title") then none else some ⟨texts.1, texts.2⟩),
   none⟩

/-- Model of JavaScript `s.indexOf(c)` (as an `Option`; JavaScript uses -1
for absence). -/
def idxOfAux (c : Char) : List Char → Option Nat
  | [] => none
  | x :: rest => if x = c then some 0 else (idxOfAux c rest).map (fun n => n + 1)

/-- `raw.indexOf(c)` on strings. -/
def idxOfC (s : String) (c : Char) : Option Nat := idxOfAux c s.toList

/-- `raw.lastIndexOf(c)` on strings. -/
def lastIdxOfC (s : String) (c : Char) : Option Nat :=
  match idxOfAux c s.toList.reverse with
  | some i => some (s.toList.length - 1 - i)
  | none => none

/-- The empty-object string used when no brace pair is found. -/
def emptyObjStr : String := String.mk [lbraceC, rbraceC]

/-- The wrapped-JSON extraction shared by part_000 (lines 139-140) and
part_001 (lines 90-91): take the substring between the first opening brace
and the last closing brace when both exist in that order, else the literal
empty-object string. -/
def extractJsonStr (raw : String) : String :=
  match idxOfC raw lbraceC, lastIdxOfC raw rbraceC with
  | some i, some j => if i < j then strSliceCU raw i (j + 1) else emptyObjStr
  | _, _ => emptyObjStr

/-- Placeholder for the engine-specific `SyntaxError.message` surfaced as
`llm_error` when `await r.json()` throws; no claim depends on its text. -/
def jsonErrMsg : String := ("invalid json")

/-- The provider-error message of the Russian/image handlers:
`JSON.parse(errText)?.error?.message || errText` with a parse failure
caught to `errText` (non-string truthy messages do not occur in the
modelled traffic). -/
def ruErrMsg (errText : String) : String :=
  match jparse errText with
  | some v =>
    match jget (jget v ("error")) ("message") with
    | .jstr s => if s = ("") then errText else s
    | _ => errText
  | none => errText

/-! ## Russian handler (route.js lines 310-428 and part_001) -/

/-- `genBusiness` of the Russian handlers. -/
def genBusinessRu (b : ReqBody) : String :=
  let t := jsOrS (b.title.map strTrim) ("Квартира")
  let rooms :=
    match b.rooms with
    | some n => if n = 0 then ("Жильё") else toString n ++ ("-комнатная")
    | none => ("Жильё")
  let area :=
    match b.area with
    | some n => if n = 0 then ("") else ("~") ++ toString n ++ (" м². ")
    | none => ("")
  let addr :=
    match b.address with
    | some a => if a = ("") then ("") else (", ") ++ a
    | none => ("")
  rooms ++ (" ") ++ t ++ addr ++ (". ") ++ area ++
    ("Панорамные окна, функциональная планировка, аккуратный подъезд. Рядом транспорт и инфраструктура. Готово к показам.")

/-- `genEmotional` of the Russian handlers. -/
def genEmotionalRu (b : ReqBody) : String :=
  let t := jsOrS (b.title.map strTrim) ("уютная квартира")
  ("Современный уют — ") ++ t ++
    (". Светлая гостиная и тихие спальни, балкон для вечеров. Парки, кафе и хорошие школы — всё рядом. Отличный вариант для жизни и инвестиций.")

/-- The style-restricted fallback texts of the Russian handlers. -/
def ruFallbackTexts (b : ReqBody) (style : String) : TextsPair :=
  ⟨if style = ("emotional") then ("") else genBusinessRu b,
   if style = ("business") then ("") else genEmotionalRu b⟩

/-- The Russian handler `POST` (route.js lines 325-428; part_001 lines
21-112 is the same logic in TypeScript), over a body already normalized
to an object.  The undefaulted `body.style` comparisons of part_001 agree
with the `style = body.style || "both"` variable of route.js, since the
comparisons are only against the two style names.  The two variants do
differ before this point: route.js line 328 normalizes the parsed body
with `|| {}` while part_001 line 24 does not, so part_001 throws an
uncaught TypeError on a JSON `null` body; that raw-body layer is modelled
separately by `POSTruRaw` below. -/
def POSTru (apiKey : Option String) (b : ReqBody) (prov : Provider) : RuPayload :=
  let style := jsOrS b.style ("both")
  if !(optTruthyS apiKey) then
    ⟨true, ruFallbackTexts b style, ("fallback"), none, none⟩
  else
    match prov with
    | .fetchExc m =>
      ⟨true, ruFallbackTexts b style, ("fallback_exception"), none,
       some (if m = ("") then ("exception") else m)⟩
    | .httpRes st body =>
      if !(httpOkStatus st) then
        let msg := ruErrMsg body
        ⟨true, ruFallbackTexts b style, ("fallback_llm_error"), some st,
         some (strTake 500 (if msg = ("") then ("unknown") else msg))⟩
      else
        match jparse body with
        | none =>
          ⟨true, ruFallbackTexts b style, ("fallback_exception"), none, some jsonErrMsg⟩
        | some data =>
          match contentField data with
          | .jstr raw =>
            let parsed := (jparse (extractJsonStr raw)).getD (JVal.jobj [])
            let business :=
              if style = ("emotional") then ("")
              else
                match jget parsed ("business") with
                | .jstr s => strTrim s
                | _ => ("")
            let emotional :=
              if style = ("business") then ("")
              else
                match jget parsed ("emotional") with
                | .jstr s => strTrim s
                | _ => ("")
            ⟨true,
             ⟨if business = ("") then (if style = ("emotional") then ("") else genBusinessRu b)
              else business,
              if emotional = ("") then (if style = ("business") then ("") else genEmotionalRu b)
              else emotional⟩,
             ("llm"), none, none⟩
          | .jnull =>
            ⟨true,
             ⟨if style = ("emotional") then ("") else genBusinessRu b,
              if style = ("business") then ("") else genEmotionalRu b⟩,
             ("llm"), none, none⟩
          | .jundefined =>
            ⟨true,
             ⟨if style = ("emotional") then ("") else genBusinessRu b,
              if style = ("business") then ("") else genEmotionalRu b⟩,
             ("llm"), none, none⟩
          | _ =>
            ⟨true, ruFallbackTexts b style, ("fallback_exception"), none, some jsonErrMsg⟩

/-! ## Image-enabled English handler (part_000) -/

/-- `genTitle` of part_000 (`typeof x === "number"` presence checks, so a
zero count is included, unlike the truthiness checks elsewhere). -/
def genTitleEn (b : ReqBody) : String :=
  let parts :=
    (match b.bedrooms with | some n => [toString n ++ (" BR")] | none => []) ++
    (match b.bathrooms with | some n => [toString n ++ (" BA")] | none => []) ++
    (match b.area with | some n => [("~") ++ toString n ++ (" ft²")] | none => [])
  let meta := jsJoinSep (" · ") parts
  let addr :=
    match b.address with
    | some a => if a = ("") then ("") else (" — ") ++ a
    | none => ("")
  (if meta = ("") then ("Property") else meta) ++ addr

/-- `genBusiness` of part_000. -/
def genBusinessEn (b : ReqBody) : String :=
  let t := jsOrS (b.title.map strTrim) (genTitleEn b)
  let area :=
    match b.area with
    | some n => if n = 0 then ("") else (" ~") ++ toString n ++ (" ft².")
    | none => ("")
  t ++ (".") ++ area ++
    (" Functional layout, clean lobby, convenient access to transport and daily amenities. Ready for showings.")

/-- `genEmotional` of part_000. -/
def genEmotionalEn (b : ReqBody) : String :=
  let t := jsOrS (b.title.map strTrim) ("A cozy home")
  t ++ (" with bright living areas and quiet bedrooms; balcony/outsides for evenings. Parks, cafes, and good schools nearby. Great for living or investment.")

/-- Replace the `title` field of a body, modelling `{ ...b, title }`. -/
def withTitle (b : ReqBody) (t : String) : ReqBody :=
  ⟨some t, b.address, b.notes, b.price, b.mode, b.length, b.style,
   b.bedrooms, b.bathrooms, b.rooms, b.area, b.images, b.useImages⟩

/-- The string entries of an image list, in order. -/
def stringsOf (l : List ImgEntry) : List String :=
  l.filterMap (fun e => match e with | .istr s => some s | .iother => none)

/-- URL rewriting of part_000: absolute URLs (prefix `http`) pass through,
anything else is prefixed with the configured base URL. -/
def normalizeUrl (base u : String) : String :=
  if jsStartsWith u ("http") then u else base ++ u

/-- Default base URL of part_000: `SOURCE_BASE_URL || "https://reality.na4u.ru"`. -/
def defaultBaseUrl : String := ("https://reality.na4u.ru")

/-- Default maximum image count of part_000: `Number(MAX_IMAGE_COUNT || 6)`. -/
def defaultMaxImages : Nat := 6

/-- The image normalizer of part_000 (lines 37-42): keep the string
entries (`filter(u => typeof u === "string")`), rewrite each
(`map(u => u.startsWith("http") ? u : base + u)`), and truncate
(`slice(0, maxN)`); a non-array `images` yields the empty list. -/
def absImages (images : Option (List ImgEntry)) (base : String) (maxN : Nat) : List String :=
  match images with
  | some l => (((stringsOf l).map (normalizeUrl base)).take maxN)
  | none => []

/-- The mode/style-restricted fallback text pair of part_000, built around
a given final title (the handler passes `{ ...b, title }`). -/
def imgFallbackTexts (b : ReqBody) (mode style : String) (title : String) : TextsPair :=
  ⟨if mode = ("title") then ("")
   else if style = ("emotional") then ("")
   else genBusinessEn (withTitle b title),
   if mode = ("title") || style = ("business") then ("")
   else genEmotionalEn (withTitle b title)⟩

/-- The image-enabled handler `POST` of part_000 (lines 24-162), over a
body already normalized to an object (part_000 line 30 applies `|| {}`,
so a parse failure, `null`, and falsy primitives arrive here as the empty
object; the truthy-primitive crash path of line 31 is modelled separately
by `POSTimgRaw` below).  The prompt, image attachments, and token budget
do not affect the response given the abstract `prov`, so they are not
modelled. -/
def POSTimg (apiKey : Option String) (b : ReqBody) (prov : Provider) : ImgPayload :=
  let mode := jsOrS b.mode ("all")
  let style := jsOrS b.style ("both")
  if !(optTruthyS apiKey) then
    let title := genTitleEn b
    ⟨true, title, imgFallbackTexts b mode style title, ("fallback"), none, none⟩
  else
    match prov with
    | .fetchExc m =>
      let title := genTitleEn b
      ⟨true, title, imgFallbackTexts b mode style title, ("fallback_exception"), none,
       some (if m = ("") then ("exception") else m)⟩
    | .httpRes st body =>
      if !(httpOkStatus st) then
        let msg := ruErrMsg body
        let title := genTitleEn b
        ⟨true, title, imgFallbackTexts b mode style title, ("fallback_llm_error"), some st,
         some (strTake 500 (if msg = ("") then ("unknown") else msg))⟩
      else
        match jparse body with
        | none =>
          let title := genTitleEn b
          ⟨true, title, imgFallbackTexts b mode style title, ("fallback_exception"), none,
           some jsonErrMsg⟩
        | some data =>
          match contentField data with
          | .jstr raw =>
            let parsed := (jparse (extractJsonStr raw)).getD (JVal.jobj [])
            let title0 :=
              match jget parsed ("title") with
              | .jstr s => strTrim s
              | _ => ("")
            let business0 :=
              if !(mode = ("title")) && !(style = ("emotional")) then
                match jget parsed ("business") with
                | .jstr s => strTrim s
                | _ => ("")
              else ("")
            let emotional0 :=
              if !(mode = ("title")) && !(style = ("business")) then
                match jget parsed ("emotional") with
                | .jstr s => strTrim s
                | _ => ("")
              else ("")
            let finalTitle := if title0 = ("") then genTitleEn b else title0
            ⟨true, finalTitle,
             ⟨if business0 = ("") then
                (if mode = ("title") then ("")
                 else if style = ("emotional") then ("")
                 else genBusinessEn (withTitle b finalTitle))
              else business0,
              if emotional0 = ("") then
                (if mode = ("title") || style = ("business") then ("")
                 else genEmotionalEn (withTitle b finalTitle))
              else emotional0⟩,
             ("llm"), none, none⟩
          | .jnull =>
            let finalTitle := genTitleEn b
            ⟨true, finalTitle, imgFallbackTexts b mode style finalTitle, ("llm"), none, none⟩
          | .jundefined =>
            let finalTitle := genTitleEn b
            ⟨true, finalTitle, imgFallbackTexts b mode style finalTitle, ("llm"), none, none⟩
          | _ =>
            let title := genTitleEn b
            ⟨true, title, imgFallbackTexts b mode style title, ("fallback_exception"), none,
             some jsonErrMsg⟩

/-! ## The raw request body, before object normalization

JavaScript `req.json()` can resolve to `null`, to a non-object primitive,
or to an object, or reject (caught by every handler's
`.catch(() => ({}))`).  The handlers differ in what they do next:
route.js (both handlers) and part_000 normalize with `|| {}`; part_001
does not.  Property reads on a primitive yield `undefined`, property
reads on `null` throw a TypeError, and a property assignment on a
primitive throws a TypeError in strict-mode ESM. -/

theorem strToList_append (s t : String) : (s ++ t).toList = s.toList ++ t.toList := by
  cases s
  cases t
  rfl

theorem countDot_append (s t : String) : countDot (s ++ t) = countDot s + countDot t := by
  simp [countDot, strToList_append, List.count_append]

theorem countDot_join (l : List String) :
    countDot (jsJoinSep (" ") l) = (l.map countDot).sum := by
  induction l with
  | nil => rfl
  | cons a t ih =>
    cases t with
    | nil => simp [jsJoinSep]
    | cons b t2 =>
      have hstep : jsJoinSep (" ") (a :: b :: t2) = a ++ (" ") ++ jsJoinSep (" ") (b :: t2) := rfl
      have hsp : countDot (" ") = 0 := by decide
      rw [hstep, countDot_append, countDot_append, ih, hsp]
      simp [Nat.add_comm]

theorem sum_take_le_sum (l : List Nat) (n : Nat) : (l.take n).sum ≤ l.sum := by
  conv_rhs => rw [← List.take_append_drop n l]
  rw [List.sum_append]
  exact Nat.le_add_right _ _

theorem sum_take_mono (l : List Nat) {m n : Nat} (h : m ≤ n) :
    (l.take m).sum ≤ (l.take n).sum := by
  have hx : (l.take n).take m = l.take m := by
    rw [List.take_take, Nat.min_eq_left h]
  rw [← hx]
  exact sum_take_le_sum _ _

theorem countDot_join_take_mono (l : List String) {m n : Nat} (h : m ≤ n) :
    countDot (jsJoinSep (" ") (l.take m)) ≤ countDot (jsJoinSep (" ") (l.take n)) := by
  rw [countDot_join, countDot_join, List.map_take, List.map_take]
  exact sum_take_mono _ h

/-! ## Claim theorems -/

/-- The concrete input of C6: `{bedrooms: 2, area: 850, address: "123 Main St"}`. -/
def bodyC6 : ReqBody :=
  ⟨none, some ("123 Main St"), none, none, none, none, none, some 2, none, none, some 850, none, none⟩

/-- The main handler's response for the C6 input with no credential. -/
def respC6 : MainPayload := POSTmainCore bodyC6 none (Provider.fetchExc (""))

/-- C6: for the input `{bedrooms: 2, area: 850, address: "123 Main St"}`
with no API credential configured, the main handler's response has source
`fallback`, llm_status `missing_key`, a non-empty title containing `2` and
`850`, and non-empty business and emotional texts each containing the
address `123 Main St`. -/
theorem C6_missing_key_example :
    respC6.source = some ("fallback")
    ∧ respC6.llm_status = some ("missing_key")
    ∧ isNonEmptyS (respC6.title.getD ("")) = true
    ∧ strContains (respC6.title.getD ("")) ("2") = true
    ∧ strContains (respC6.title.getD ("")) ("850") = true
    ∧ isNonEmptyS ((respC6.texts.getD ⟨(""), ("")⟩).business) = true
    ∧ strContains ((respC6.texts.getD ⟨(""), ("")⟩).business) ("123 Main St") = true
    ∧ isNonEmptyS ((respC6.texts.getD ⟨(""), ("")⟩).emotional) = true
    ∧ strContains ((respC6.texts.getD ⟨(""), ("")⟩).emotional) ("123 Main St") = true := by
  decide

/-- C7: for every fixed input, the number of (period-terminated) sentences
in the fallback business text and in the fallback emotional text is
monotonically non-decreasing as the length parameter goes
short → medium → long: the generator takes prefixes of sizes 2 / 4 / 6 of
the fixed candidate sentence lists. -/
theorem C7_sentence_count_monotone :
    ∀ b : ReqBody,
      (countDot (fallbackDescriptions b ("short")).business
         ≤ countDot (fallbackDescriptions b ("medium")).business
       ∧ countDot (fallbackDescriptions b ("medium")).business
         ≤ countDot (fallbackDescriptions b ("long")).business)
      ∧ (countDot (fallbackDescriptions b ("short")).emotional
         ≤ countDot (fallbackDescriptions b ("medium")).emotional
       ∧ countDot (fallbackDescriptions b ("medium")).emotional
         ≤ countDot (fallbackDescriptions b ("long")).emotional) := by
  intro b
  have hs : sentenceBudget ("short") = 2 := by decide
  have hm : sentenceBudget ("medium") = 4 := by decide
  have hl : sentenceBudget ("long") = 6 := by decide
  refine ⟨⟨?_, ?_⟩, ?_, ?_⟩ <;>
    simp only [fallbackDescriptions, hs, hm, hl] <;>
    exact countDot_join_take_mono _ (by omega)

theorem idxOfAux_append_nomem (c : Char) (P R : List Char) (h : c ∉ P) :
    idxOfAux c (P ++ c :: R) = some P.length := by
  induction P with
  | nil => simp [idxOfAux]
  | cons x t ih =>
    have hx : ¬ x = c := by
      intro he
      exact h (by simp [he])
    have ht : c ∉ t := fun hm => h (List.mem_cons_of_mem _ hm)
    simp [idxOfAux, hx, ih ht]

theorem extractJsonStr_wrapped (pre midIn post : String)
    (h1 : lbraceC ∉ pre.toList) (h2 : rbraceC ∉ post.toList) :
    extractJsonStr (pre ++ String.mk (lbraceC :: (midIn.toList ++ [rbraceC])) ++ post)
      = String.mk (lbraceC :: (midIn.toList ++ [rbraceC])) := by
  have hL : (pre ++ String.mk (lbraceC :: (midIn.toList ++ [rbraceC])) ++ post).toList
      = pre.toList ++ (lbraceC :: (midIn.toList ++ [rbraceC])) ++ post.toList := by
    rw [strToList_append, strToList_append]
    rfl
  have hassoc : pre.toList ++ (lbraceC :: (midIn.toList ++ [rbraceC])) ++ post.toList
      = pre.toList ++ lbraceC :: ((midIn.toList ++ [rbraceC]) ++ post.toList) := by
    simp [List.append_assoc]
  have hidx : idxOfC (pre ++ String.mk (lbraceC :: (midIn.toList ++ [rbraceC])) ++ post) lbraceC
      = some pre.toList.length := by
    unfold idxOfC
    rw [hL, hassoc]
    exact idxOfAux_append_nomem _ _ _ h1
  have hrev : (pre.toList ++ (lbraceC :: (midIn.toList ++ [rbraceC])) ++ post.toList).reverse
      = post.toList.reverse ++ rbraceC :: (midIn.toList.reverse ++ lbraceC :: pre.toList.reverse) := by
    simp [List.reverse_append, List.append_assoc]
  have h2r : rbraceC ∉ post.toList.reverse := by
    rw [List.mem_reverse]
    exact h2
  have hlen : (pre.toList ++ (lbraceC :: (midIn.toList ++ [rbraceC])) ++ post.toList).length
      = pre.toList.length + midIn.toList.length + 2 + post.toList.length := by
    simp [List.length_append]
    omega
  have hlast : lastIdxOfC (pre ++ String.mk (lbraceC :: (midIn.toList ++ [rbraceC])) ++ post) rbraceC
      = some (pre.toList.length + midIn.toList.length + 1) := by
    unfold lastIdxOfC
    rw [hL, hrev, idxOfAux_append_nomem _ _ _ h2r]
    dsimp only
    rw [hlen]
    simp only [List.length_reverse, Option.some.injEq]
    omega
  unfold extractJsonStr
  rw [hidx, hlast]
  have hlt : pre.toList.length < pre.toList.length + midIn.toList.length + 1 := by omega
  dsimp only
  rw [if_pos hlt]
  unfold strSliceCU
  rw [hL, hassoc]
  have hdrop : (pre.toList ++ lbraceC :: ((midIn.toList ++ [rbraceC]) ++ post.toList)).drop
      pre.toList.length = lbraceC :: ((midIn.toList ++ [rbraceC]) ++ post.toList) := by
    exact List.drop_left _ _
  rw [hdrop]
  have harith : pre.toList.length + midIn.toList.length + 1 + 1 - pre.toList.length
      = midIn.toList.length + 2 := by omega
  rw [harith]
  have hshape : lbraceC :: ((midIn.toList ++ [rbraceC]) ++ post.toList)
      = (lbraceC :: (midIn.toList ++ [rbraceC])) ++ post.toList := by
    simp
  rw [hshape]
  have htl : (lbraceC :: (midIn.toList ++ [rbraceC])).length = midIn.toList.length + 2 := by
    simp
  rw [List.take_left' htl]

/-- The provider reply used to refute C5 against `callOpenAI`: HTTP 200
whose message content is
`Sure! {"title":"Cozy 2BR"} Hope this helps!` — a JSON object wrapped in
extraneous prose. -/
def cexBody5 : String :=
  ("\x7b\"choices\":[\x7b\"message\":\x7b\"content\":\"Sure! \x7b\\\"title\\\":\\\"Cozy 2BR\\\"\x7d Hope this helps!\"\x7d\x7d]\x7d")

/-- C5 counterexample: the claim quantifies over "the response parser"
including the main handler's `callOpenAI` (route.js lines 207-227), but
that parser applies `JSON.parse` to the whole content with no brace
extraction: on a reply whose content wraps a JSON object in extraneous
prose it yields the `bad_json` error outcome and uses none of the embedded
fields (the embedded title `Cozy 2BR` is not extracted). -/
theorem C5_counterexample :
    (callOpenAI (some ("k")) (Provider.httpRes 200 cexBody5)).status = ("error")
    ∧ (callOpenAI (some ("k")) (Provider.httpRes 200 cexBody5)).error = some ("bad_json")
    ∧ (callOpenAI (some ("k")) (Provider.httpRes 200 cexBody5)).title = none := by
  decide

/-- The provider reply exercising the wrapped-JSON tolerance of the
Russian handler: content `Sure! {"business":"B1","emotional":"E1"} Hope
this helps!`. -/
def ruWrapBody : String :=
  ("\x7b\"choices\":[\x7b\"message\":\x7b\"content\":\"Sure! \x7b\\\"business\\\":\\\"B1\\\",\\\"emotional\\\":\\\"E1\\\"\x7d Hope this helps!\"\x7d\x7d]\x7d")

/-- C5 amended: the Russian and image-enabled handlers extract the
substring between the first opening brace and the last closing brace of
the content and parse that substring, using the embedded object's fields
and ignoring the surrounding prose (first conjunct: the extraction; second
conjunct: an end-to-end run using the embedded fields under source `llm`);
the main handler's `callOpenAI`, by contrast, parses the whole content
strictly and reports `bad_json` on wrapped content (see the
counterexample). -/
theorem C5_brace_extraction :
    (∀ pre midIn post : String, lbraceC ∉ pre.toList → rbraceC ∉ post.toList →
      extractJsonStr (pre ++ String.mk (lbraceC :: (midIn.toList ++ [rbraceC])) ++ post)
        = String.mk (lbraceC :: (midIn.toList ++ [rbraceC])))
    ∧ ((POSTru (some ("k")) emptyBody (Provider.httpRes 200 ruWrapBody)).texts
         = ⟨("B1"), ("E1")⟩
       ∧ (POSTru (some ("k")) emptyBody (Provider.httpRes 200 ruWrapBody)).source = ("llm")) := by
  exact ⟨fun pre midIn post h1 h2 => extractJsonStr_wrapped pre midIn post h1 h2, by decide⟩

/-- Witness for C5: the extraction conjunct applied at the spec's concrete
shape, prose before and after a brace-delimited object. -/
theorem C5_brace_extraction_witness :
    extractJsonStr (("Sure! ") ++ String.mk (lbraceC :: (("\"a\":1").toList ++ [rbraceC]))
        ++ (" Hope this helps!"))
      = String.mk (lbraceC :: (("\"a\":1").toList ++ [rbraceC])) :=
  C5_brace_extraction.1 ("Sure! ") ("\"a\":1") (" Hope this helps!") (by decide) (by decide)

/-- A body requesting `mode: "descriptions"` and nothing else. -/
def bodyDescrMode : ReqBody :=
  ⟨none, none, none, none, some ("descriptions"), none, none, none, none, none, none, none, none⟩

/-- C3 counterexample: the claim's general invariant — any output field
not requested by mode/style is the empty string, never omitted — fails:
with `mode: "descriptions"` (title not requested) the image-enabled
handler still populates `title` with the non-empty fallback `Property`
(part_000 lines 88-92 and 147-155 always build a title); the main handler
instead omits unrequested fields altogether. -/
theorem C3_counterexample :
    (POSTimg none bodyDescrMode (Provider.fetchExc (""))).title = ("Property")
    ∧ ¬ (POSTimg none bodyDescrMode (Provider.fetchExc (""))).title = ("") := by
  decide

/-- C3 amended: with `mode: "title"` the texts fields, where present at
all, are both empty strings (the image-enabled handler sends
`texts: {business: "", emotional: ""}`; the main handler omits `texts` and
sends only `title`).  The general invariant holds only for the description
fields; the title is populated by the image-enabled handler even when mode
is `descriptions`, and the main handler omits unrequested fields rather
than sending empty strings. -/
theorem C3_mode_title_empties :
    (∀ k b prov, jsOrS b.mode ("all") = ("title") →
       (POSTimg k b prov).texts = ⟨(""), ("")⟩)
    ∧ (∀ b k prov, jsOrS b.mode ("all") = ("title") →
       (POSTmainCore b k prov).texts = none
       ∧ (POSTmainCore b k prov).title.isSome = true) := by
  constructor
  · intro k b prov h
    unfold POSTimg
    rw [h]
    unfold imgFallbackTexts
    repeat first | (solve | simp) | split
  · intro b k prov h
    constructor
    · unfold POSTmainCore
      rw [h]
      rfl
    · unfold POSTmainCore
      rw [h]
      rfl

/-- A body requesting `mode: "title"` and nothing else. -/
def bodyTitleMode : ReqBody :=
  ⟨none, none, none, none, some ("title"), none, none, none, none, none, none, none, none⟩

/-- Witness for C3: the amended statement at the concrete mode-title body. -/
theorem C3_mode_title_empties_witness :
    (POSTimg none bodyTitleMode (Provider.fetchExc ("x"))).texts = ⟨(""), ("")⟩
    ∧ (POSTmainCore bodyTitleMode none (Provider.fetchExc ("x"))).texts = none
    ∧ (POSTmainCore bodyTitleMode none (Provider.fetchExc ("x"))).title.isSome = true :=
  ⟨C3_mode_title_empties.1 none bodyTitleMode (Provider.fetchExc ("x")) (by decide),
   C3_mode_title_empties.2 bodyTitleMode none (Provider.fetchExc ("x")) (by decide)⟩

/-- A body requesting `style: "business"` and nothing else. -/
def bodyStyleBiz : ReqBody :=
  ⟨none, none, none, none, none, none, some ("business"), none, none, none, none, none, none⟩

/-- C4 counterexample: the main handler (route.js lines 234-306) never
reads `style`; with `style: "business"` it still returns a non-empty
emotional text, refuting the claim for that handler. -/
theorem C4_counterexample :
    jsOrS bodyStyleBiz.style ("both") = ("business")
    ∧ ¬ (((POSTmainCore bodyStyleBiz none (Provider.fetchExc (""))).texts.getD
          ⟨(""), ("")⟩).emotional = ("")) := by
  decide

/-- C4 amended: in the Russian and image-enabled handlers, style
`business` forces `texts.emotional` to the empty string and style
`emotional` forces `texts.business` to the empty string, on every code
path (LLM or fallback); the main handler ignores `style` entirely and
populates both description fields whenever descriptions are requested. -/
theorem C4_style_restriction :
    (∀ k b prov, jsOrS b.style ("both") = ("business") →
       (POSTru k b prov).texts.emotional = (""))
    ∧ (∀ k b prov, jsOrS b.style ("both") = ("emotional") →
       (POSTru k b prov).texts.business = (""))
    ∧ (∀ k b prov, jsOrS b.style ("both") = ("business") →
       (POSTimg k b prov).texts.emotional = (""))
    ∧ (∀ k b prov, jsOrS b.style ("both") = ("emotional") →
       (POSTimg k b prov).texts.business = ("")) := by
  refine ⟨?_, ?_, ?_, ?_⟩ <;>
    (intro k b prov h
     first
       | (unfold POSTru
          rw [h]
          unfold ruFallbackTexts
          repeat first | (solve | simp) | split)
       | (unfold POSTimg
          rw [h]
          unfold imgFallbackTexts
          repeat first | (solve | simp) | split))

/-- Witness for C4: the amended statement at the concrete style-business
body against the Russian handler. -/
theorem C4_style_restriction_witness :
    (POSTru none bodyStyleBiz (Provider.fetchExc ("x"))).texts.emotional = ("") :=
  C4_style_restriction.1 none bodyStyleBiz (Provider.fetchExc ("x")) (by decide)

/-- C8: the image normalizer of part_000 drops every non-string entry,
keeps strings with the recognized absolute-URL prefix `http` unchanged,
prefixes every other string with the configured base URL, and truncates to
the configured maximum count, whose default is 6; the result therefore
only depends on the string entries (third conjunct), never exceeds the
maximum (fourth conjunct), and the spec's concrete example evaluates as
stated (last conjunct). -/
theorem C8_image_normalizer :
    (∀ base maxN, absImages none base maxN = [])
    ∧ (∀ l base maxN,
        absImages (some l) base maxN = ((stringsOf l).map (normalizeUrl base)).take maxN)
    ∧ (∀ l1 l2 base maxN, stringsOf l1 = stringsOf l2 →
        absImages (some l1) base maxN = absImages (some l2) base maxN)
    ∧ (∀ images base maxN, (absImages images base maxN).length ≤ maxN)
    ∧ (defaultMaxImages = 6)
    ∧ (absImages (some [ImgEntry.istr ("/api/uploads/a.jpg"),
                        ImgEntry.istr ("https://x.test/b.jpg"), ImgEntry.iother])
         defaultBaseUrl defaultMaxImages
       = [("https://reality.na4u.ru/api/uploads/a.jpg"), ("https://x.test/b.jpg")]) := by
  refine ⟨fun base maxN => rfl, fun l base maxN => rfl, ?_, ?_, rfl, by decide⟩
  · intro l1 l2 base maxN h
    simp [absImages, h]
  · intro images base maxN
    cases images with
    | none => simp [absImages]
    | some l =>
      unfold absImages
      exact List.length_take_le maxN ((stringsOf l).map (normalizeUrl base))

/-- Witness for C8: insensitivity to non-string entries at a concrete
pair of lists with the same string entries. -/
theorem C8_image_normalizer_witness :
    absImages (some [ImgEntry.iother, ImgEntry.istr ("/a.jpg")]) ("https://b.test") 6
      = absImages (some [ImgEntry.istr ("/a.jpg"), ImgEntry.iother]) ("https://b.test") 6 :=
  C8_image_normalizer.2.2.1 [ImgEntry.iother, ImgEntry.istr ("/a.jpg")]
    [ImgEntry.istr ("/a.jpg"), ImgEntry.iother] ("https://b.test") 6 (by decide)

/-- C9: every fallback generator is a pure function of the structured
input: in the embedding the main handler's `fallbackTitle` and
`fallbackDescriptions`, the Russian `genBusinessRu`/`genEmotionalRu`, and
part_000's `genTitleEn`/`genBusinessEn`/`genEmotionalEn` (the latter two
behind `imgFallbackTexts`) take no environment or provider argument; and
observably, two runs of each handler with identical bodies but different
truthy credentials and different provider exception details produce
byte-identical fallback title and texts (only `llm_error` reflects the
exception message).  The last conjunct pins the image handler's fallback
output to the generators themselves: the title is exactly `genTitleEn`
of the input and the texts are exactly the mode/style-restricted
`genBusinessEn`/`genEmotionalEn` around that title. -/
theorem C9_fallback_two_run :
    (∀ b k1 k2 m1 m2, optTruthyS k1 = true → optTruthyS k2 = true →
      ((POSTmainCore b k1 (Provider.fetchExc m1)).texts
         = (POSTmainCore b k2 (Provider.fetchExc m2)).texts
       ∧ (POSTmainCore b k1 (Provider.fetchExc m1)).title
         = (POSTmainCore b k2 (Provider.fetchExc m2)).title)
      ∧ (POSTru k1 b (Provider.fetchExc m1)).texts
          = (POSTru k2 b (Provider.fetchExc m2)).texts)
    ∧ (∀ b k1 k2 m1 m2, optTruthyS k1 = true → optTruthyS k2 = true →
        (POSTimg k1 b (Provider.fetchExc m1)).title
          = (POSTimg k2 b (Provider.fetchExc m2)).title
        ∧ (POSTimg k1 b (Provider.fetchExc m1)).texts
          = (POSTimg k2 b (Provider.fetchExc m2)).texts)
    ∧ (∀ b k m, optTruthyS k = true →
        (POSTimg k b (Provider.fetchExc m)).title = genTitleEn b
        ∧ (POSTimg k b (Provider.fetchExc m)).texts
            = imgFallbackTexts b (jsOrS b.mode ("all")) (jsOrS b.style ("both")) (genTitleEn b)) := by
  refine ⟨?_, ?_, ?_⟩
  · intro b k1 k2 m1 m2 h1 h2
    refine ⟨⟨?_, ?_⟩, ?_⟩
    · unfold POSTmainCore callOpenAI
      rw [h1, h2]
      rfl
    · unfold POSTmainCore callOpenAI
      rw [h1, h2]
      rfl
    · unfold POSTru
      rw [h1, h2]
      rfl
  · intro b k1 k2 m1 m2 h1 h2
    refine ⟨?_, ?_⟩ <;>
      (unfold POSTimg
       rw [h1, h2]
       rfl)
  · intro b k m h
    refine ⟨?_, ?_⟩ <;>
      (unfold POSTimg
       rw [h]
       rfl)

/-- Witness for C9: the two-run statements at concrete differing keys and
exception messages, and the generator equation at a concrete key. -/
theorem C9_fallback_two_run_witness :
    (((POSTmainCore emptyBody (some ("a")) (Provider.fetchExc ("x"))).texts
        = (POSTmainCore emptyBody (some ("b")) (Provider.fetchExc ("y"))).texts
      ∧ (POSTmainCore emptyBody (some ("a")) (Provider.fetchExc ("x"))).title
        = (POSTmainCore emptyBody (some ("b")) (Provider.fetchExc ("y"))).title)
     ∧ (POSTru (some ("a")) emptyBody (Provider.fetchExc ("x"))).texts
         = (POSTru (some ("b")) emptyBody (Provider.fetchExc ("y"))).texts)
    ∧ ((POSTimg (some ("a")) emptyBody (Provider.fetchExc ("x"))).title
         = (POSTimg (some ("b")) emptyBody (Provider.fetchExc ("y"))).title
       ∧ (POSTimg (some ("a")) emptyBody (Provider.fetchExc ("x"))).texts
         = (POSTimg (some ("b")) emptyBody (Provider.fetchExc ("y"))).texts)
    ∧ ((POSTimg (some ("a")) emptyBody (Provider.fetchExc ("x"))).title
         = genTitleEn emptyBody
       ∧ (POSTimg (some ("a")) emptyBody (Provider.fetchExc ("x"))).texts
         = imgFallbackTexts emptyBody (jsOrS emptyBody.mode ("all"))
             (jsOrS emptyBody.style ("both")) (genTitleEn emptyBody)) :=
  ⟨C9_fallback_two_run.1 emptyBody (some ("a")) (some ("b")) ("x") ("y")
     (by decide) (by decide),
   C9_fallback_two_run.2.1 emptyBody (some ("a")) (some ("b")) ("x") ("y")
     (by decide) (by decide),
   C9_fallback_two_run.2.2 emptyBody (some ("a")) ("x") (by decide)⟩

theorem strLen_strTake (n : Nat) (s : String) : strLen (strTake n s) ≤ n := by
  unfold strLen strTake
  exact List.length_take_le n s.toList

theorem strLen_fallbackTitle (b : ReqBody) : strLen (fallbackTitle b) ≤ 120 := by
  unfold fallbackTitle
  exact strLen_strTake 120 _

/-- C10: in the main handler, when the request body contains a title
whose trimmed form is non-empty and the LLM outcome supplies no non-empty
title, the composed title equals the client-supplied title trimmed of
surrounding whitespace, and the value of the (lazily evaluated) fallback
title does not influence the result; an LLM-supplied non-empty title is
truncated to at most 200 characters (the fallback branch stays below 120);
and through the whole handler with mode `all` and no credential, the
response title is the trimmed client title. -/
theorem C10_title_precedence :
    (∀ fb fb2 bodyTitle llmTitle needTitle,
       isNonEmptyS (strTrim (bodyTitle.getD (""))) = true →
       isNonEmptyO llmTitle = false →
       composeTitle fb bodyTitle llmTitle needTitle = strTrim (bodyTitle.getD (""))
       ∧ composeTitle fb bodyTitle llmTitle needTitle
           = composeTitle fb2 bodyTitle llmTitle needTitle)
    ∧ (∀ b bodyTitle llmTitle needTitle,
       isNonEmptyO llmTitle = true →
       strLen (composeTitle (fallbackTitle b) bodyTitle llmTitle needTitle) ≤ 200)
    ∧ (∀ b prov,
       isNonEmptyS (strTrim (b.title.getD (""))) = true →
       jsOrS b.mode ("all") = ("all") →
       (POSTmainCore b none prov).title = some (strTrim (b.title.getD ("")))) := by
  refine ⟨?_, ?_, ?_⟩
  · intro fb fb2 bodyTitle llmTitle needTitle h1 h2
    unfold composeTitle
    rw [h2]
    simp [h1]
  · intro b bodyTitle llmTitle needTitle h
    unfold composeTitle
    dsimp only
    split
    · split
      · have hb := strLen_fallbackTitle b
        omega
      · exact strLen_strTake 200 _
    · simp_all
  · intro b prov h1 h2
    unfold POSTmainCore
    rw [h2]
    unfold composeTitle
    simp [optTruthyS, h1, isNonEmptyO]

/-- A body carrying a padded client title. -/
def bodyClientTitle : ReqBody :=
  ⟨some ("  Sunny Loft  "), none, none, none, none, none, none, none, none, none, none, none, none⟩

/-- Witness for C10: the precedence statement at a concrete padded client
title with no LLM title, plus the truncation bound at a concrete LLM
title. -/
theorem C10_title_precedence_witness :
    (composeTitle ("FALLBACK") (some ("  Sunny Loft  ")) none true
       = strTrim (some ("  Sunny Loft  ") |>.getD (""))
     ∧ composeTitle ("FALLBACK") (some ("  Sunny Loft  ")) none true
       = composeTitle ("OTHER") (some ("  Sunny Loft  ")) none true)
    ∧ strLen (composeTitle (fallbackTitle emptyBody) none (some ("T")) true) ≤ 200
    ∧ (POSTmainCore bodyClientTitle none (Provider.fetchExc ("x"))).title
        = some (strTrim (bodyClientTitle.title.getD (""))) :=
  ⟨C10_title_precedence.1 ("FALLBACK") ("OTHER") (some ("  Sunny Loft  ")) none true
     (by decide) (by decide),
   C10_title_precedence.2.1 emptyBody none (some ("T")) true (by decide),
   C10_title_precedence.2.2 bodyClientTitle (Provider.fetchExc ("x")) (by decide) (by decide)⟩

end ReaiRelay
